import Mathlib

/-!
Formal model of the cluster provisioning orchestrator of `openshift-qemu`
(packages `pkg/cluster`, `pkg/libvirt`, `pkg/dns`, `pkg/systemd`).

Go functions are embedded shallowly: pure string construction is embedded
directly, external effects (the libvirt hypervisor, the filesystem, the ssh
client) are passed in as explicit oracles or state, and Go `error` results
become `Option String` (where `none` is Go's `nil` error).  Unbounded `for`
loops are embedded with explicit fuel.
-/

set_option maxRecDepth 10000

namespace OpenshiftQemu

/-- A Go `error` value: `none` is Go's `nil`. -/
abbrev GoErr := Option String

/-- A single quote character, used when assembling the XML fragments that the
Go source builds with `%s`-format strings containing single-quoted
attributes. -/
def sq : String := String.singleton (Char.ofNat 39)

/-- `startsWithChars hay needle` is true when `needle` is an initial segment
of `hay`. -/
def startsWithChars : List Char → List Char → Bool
  | _, [] => true
  | [], _ :: _ => false
  | c :: cs, d :: ds => c == d && startsWithChars cs ds

/-- `hasSubChars needle hay` is true when `needle` occurs contiguously in
`hay`. -/
def hasSubChars (needle : List Char) : List Char → Bool
  | [] => needle.isEmpty
  | c :: rest => startsWithChars (c :: rest) needle || hasSubChars needle rest

/-- `strContains s sub` models Go's `strings.Contains s sub`. -/
def strContains (s sub : String) : Bool :=
  hasSubChars sub.data s.data

/-- The suffix of `hay` right after the first occurrence of `needle`, or
`none` when `needle` does not occur: models Go's
`hay[strings.Index(hay, needle) + len(needle):]`. -/
def dropAfterMatch (needle : List Char) : List Char → Option (List Char)
  | [] => if needle.isEmpty then some [] else none
  | c :: rest =>
    if startsWithChars (c :: rest) needle then some ((c :: rest).drop needle.length)
    else dropAfterMatch needle rest

/-! ## Interface addresses and `GetVMIP` (pkg/libvirt, lines 436-464) -/

/-- Address family tag of `libvirt.IP_ADDR_TYPE_*`. -/
inductive IPAddrType where
  | ipv4
  | ipv6
  deriving DecidableEq, Repr, BEq

/-- One address reported for a domain interface. -/
structure IfaceAddr where
  typ : IPAddrType
  addr : String
  deriving DecidableEq, Repr

/-- One domain interface as reported by
`ListAllInterfaceAddresses(DOMAIN_INTERFACE_ADDRESSES_SRC_LEASE)`. -/
structure DomainIface where
  hwaddr : String
  addrs : List IfaceAddr
  deriving DecidableEq, Repr

/-- The acceptance test of the inner loop of `GetVMIP`:
`addr.Type == libvirt.IP_ADDR_TYPE_IPV4 && strings.Contains(addr.Addr, ".")`. -/
def addrAccepted (a : IfaceAddr) : Bool :=
  a.typ == IPAddrType.ipv4 && strContains a.addr "."

/-- The double loop of `GetVMIP`: the first interface with a non-empty
hardware address that carries an accepted IPv4 address yields
`(addr, hwaddr)`. -/
def findLease : List DomainIface → Option (String × String)
  | [] => none
  | iface :: rest =>
    if iface.hwaddr ≠ "" then
      match iface.addrs.find? addrAccepted with
      | some a => some (a.addr, iface.hwaddr)
      | none => findLease rest
    else
      findLease rest

/-- `GetVMIP` (pkg/libvirt): the argument is the outcome of the hypervisor
query (domain lookup plus interface listing); on success with no accepted
interface the function returns `("", "", nil)`. -/
def GetVMIP (res : Except String (List DomainIface)) : String × String × GoErr :=
  match res with
  | .error e => ("", "", some e)
  | .ok ifaces =>
    match findLease ifaces with
    | some (ip, mac) => (ip, mac, none)
    | none => ("", "", none)

/-! ## `waitForVMIP` (pkg/cluster/nodes, lines 177-190)

The Go loop body is

```
time.Sleep(5 * time.Second)
ip, mac, err = libvirt.GetVMIP(conn, vmName)
if err == nil && ip != "" && mac != "" { return ip, mac, nil }
return "", "", err
```

so each iteration sleeps once and then executes one of the two `return`
statements.  The lease source is an oracle giving the `GetVMIP` outcome of
the n-th query attempt. -/

/-- The success test of `waitForVMIP`: `err == nil && ip != "" && mac != ""`. -/
def leaseValid (r : String × String × GoErr) : Bool :=
  r.2.2 == none && r.1 != "" && r.2.1 != ""

/-- One body of the `for` loop of `waitForVMIP`; `some r` means the body
executes a `return` statement with result `r`, `none` would mean "continue
looping".  Both branches of the source return. -/
def waitForVMIPBody (r : String × String × GoErr) : Option (String × String × GoErr) :=
  if leaseValid r then some r else some ("", "", r.2.2)

/-- The `for` loop of `waitForVMIP`, with fuel; on exit it reports the number
of 5-second sleeps performed together with the returned triple. -/
def waitForVMIPLoop (src : Nat → Except String (List DomainIface)) :
    Nat → Nat → Option (Nat × (String × String × GoErr))
  | 0, _ => none
  | fuel + 1, n =>
    match waitForVMIPBody (GetVMIP (src n)) with
    | some r => some (n + 1, r)
    | none => waitForVMIPLoop src fuel (n + 1)

/-- `waitForVMIP` (pkg/cluster/nodes): run the loop from attempt 0. -/
def waitForVMIP (src : Nat → Except String (List DomainIface)) (fuel : Nat) :
    Option (Nat × (String × String × GoErr)) :=
  waitForVMIPLoop src fuel 0

/-- Concrete interface used in the lease-source scenario for `waitForVMIP`:
a valid IPv4 lease. -/
def ifaceC1 : DomainIface :=
  { hwaddr := "52:54:00:aa:bb:01", addrs := [{ typ := IPAddrType.ipv4, addr := "192.168.126.10" }] }

/-- Lease source that reports no entry (and no error) on the first query
attempt and a valid entry from the second attempt on. -/
def srcC1 : Nat → Except String (List DomainIface) :=
  fun n => if n = 0 then .ok [] else .ok [ifaceC1]

/-! ## VM parameters and `CreateVM` (pkg/libvirt, lines 331-389) -/

/-- The `osVariant` constant of package `cluster` is defined outside the given
sources; its value never reaches any claim because `CreateVM` does not use
the `OSVariant` field. -/
def osVariant : String := "rhel9.4"

/-- `VMParams` (pkg/libvirt). -/
structure VMParams where
  Name : String
  Memory : Nat
  CPUs : Nat
  DiskPath : String
  OSVariant : String
  Location : String
  ExtraArgs : String
  Network : String
  deriving DecidableEq, Repr

/-- `qt v` is `v` wrapped in the single quotes the Go format strings use for
XML attribute values. -/
def qt (v : String) : String := sq ++ v ++ sq

/-- The `domainXML` format string of `CreateVM` (pkg/libvirt, lines 344-378),
with its four `%s`/`%d` arguments `Name`, `Memory`, `CPUs`, `DiskPath`,
`Network` interpolated.  It is the whole declarative VM definition that
`DomainCreateXML` receives. -/
def domainXML (params : VMParams) : String :=
  "\n<domain type=" ++ qt "kvm" ++ ">\n  <name>" ++ params.Name ++
  "</name>\n  <metadata>\n    <libosinfo:libosinfo xmlns:libosinfo=\"http://libosinfo.org/xmlns/libvirt/domain/1.0\">\n      <libosinfo:os id=\"http://redhat.com/rhel/9.0\"/>\n    </libosinfo:libosinfo>\n  </metadata>\n  <memory unit=" ++
  qt "MiB" ++ ">" ++ toString params.Memory ++ "</memory>\n  <vcpu placement=" ++
  qt "static" ++ ">" ++ toString params.CPUs ++ "</vcpu>\n  <cpu mode=" ++
  qt "host-passthrough" ++ ">\n    <model fallback=" ++ qt "allow" ++
  "/>\n  </cpu>\n  <os>\n    <type arch=" ++ qt "x86_64" ++ " machine=" ++
  qt "pc-q35-rhel9.4.0" ++ ">hvm</type>\n    <boot dev=" ++ qt "hd" ++
  "/>\n  </os>\n  <features>\n    <acpi/>\n    <apic/>\n  </features>\n  <devices>\n    <disk type=" ++
  qt "file" ++ " device=" ++ qt "disk" ++ ">\n      <driver name=" ++ qt "qemu" ++
  " type=" ++ qt "qcow2" ++ "/>\n      <source file=" ++ qt params.DiskPath ++
  "/>\n      <target dev=" ++ qt "vda" ++ " bus=" ++ qt "virtio" ++
  "/>\n    </disk>\n    <interface type=" ++ qt "network" ++
  ">\n      <source network=" ++ qt params.Network ++ "/>\n      <model type=" ++
  qt "virtio" ++ "/>\n    </interface>\n    <graphics type=" ++ qt "vnc" ++
  " autoport=" ++ qt "yes" ++ "/>\n  </devices>\n</domain>"

/-! ## Node specs (pkg/cluster/nodes, lines 12-140) -/

/-- `NodeParams` (pkg/cluster/nodes). -/
structure NodeParams where
  ClusterName : String
  BaseDomain : String
  VMDir : String
  LBIP : String
  WSPort : Nat
  Image : String
  VirNet : String
  BtsMem : Nat
  BtsCPU : Nat
  MasMem : Nat
  MasCPU : Nat
  WorMem : Nat
  WorCPU : Nat
  NMaster : Nat
  NWorker : Nat
  RHCOSArg : String
  LibguestfsBackend : String
  deriving DecidableEq, Repr

/-- The `ExtraArgs` format string shared by `createBootstrapNode`,
`createMasterNodes` and `createWorkerNodes`, with the role's ignition file
name as the last argument. -/
def nodeExtraArgs (p : NodeParams) (ign : String) : String :=
  "nomodeset rd.neednet=1 coreos.inst=yes coreos.inst.install_dev=vda " ++
  p.RHCOSArg ++ "=http://" ++ p.LBIP ++ ":" ++ toString p.WSPort ++ "/" ++ p.Image ++
  " coreos.inst.ignition_url=http://" ++ p.LBIP ++ ":" ++ toString p.WSPort ++ "/" ++ ign

/-- The `VMParams` built by `createBootstrapNode` (pkg/cluster/nodes,
lines 75-90). -/
def bootstrapVMParams (p : NodeParams) : VMParams :=
  { Name := p.ClusterName ++ "-bootstrap"
    Memory := p.BtsMem
    CPUs := p.BtsCPU
    DiskPath := p.VMDir ++ "/" ++ p.ClusterName ++ "-bootstrap.qcow2"
    OSVariant := osVariant
    Location := "rhcos-install/"
    ExtraArgs := nodeExtraArgs p "bootstrap.ign"
    Network := p.VirNet }

/-- The `VMParams` built for master `i` by `createMasterNodes`
(pkg/cluster/nodes, lines 93-115). -/
def masterVMParams (p : NodeParams) (i : Nat) : VMParams :=
  { Name := p.ClusterName ++ "-master-" ++ toString i
    Memory := p.MasMem
    CPUs := p.MasCPU
    DiskPath := p.VMDir ++ "/" ++ p.ClusterName ++ "-master-" ++ toString i ++ ".qcow2"
    OSVariant := osVariant
    Location := "rhcos-install/"
    ExtraArgs := nodeExtraArgs p "master.ign"
    Network := p.VirNet }

/-- The `VMParams` built for worker `i` by `createWorkerNodes`
(pkg/cluster/nodes, lines 118-140). -/
def workerVMParams (p : NodeParams) (i : Nat) : VMParams :=
  { Name := p.ClusterName ++ "-worker-" ++ toString i
    Memory := p.WorMem
    CPUs := p.WorCPU
    DiskPath := p.VMDir ++ "/" ++ p.ClusterName ++ "-worker-" ++ toString i ++ ".qcow2"
    OSVariant := osVariant
    Location := "rhcos-install/"
    ExtraArgs := nodeExtraArgs p "worker.ign"
    Network := p.VirNet }

/-! ## DHCP reservation (pkg/libvirt, lines 466-492) -/

/-- The arguments that one `AddDHCPReservation` invocation hands to the
hypervisor's `network.Update(ADD_LAST, IP_DHCP_HOST, ...)` call, recorded
under the parameter names of the Go signature
`AddDHCPReservation(conn, networkName, macAddress, ipAddress)`. -/
structure DHCPReservation where
  networkName : String
  mac : String
  ip : String
  deriving DecidableEq, Repr

/-- `AddDHCPReservation` (pkg/libvirt): the reservation request it issues for
its arguments, in signature order `networkName`, `macAddress`, `ipAddress`. -/
def AddDHCPReservation (networkName macAddress ipAddress : String) : DHCPReservation :=
  { networkName := networkName, mac := macAddress, ip := ipAddress }

/-- The `dhcpHostXML` format string of `AddDHCPReservation`:
`<host mac='%s' ip='%s'/>`. -/
def dhcpHostXML (macAddress ipAddress : String) : String :=
  "<host mac=" ++ qt macAddress ++ " ip=" ++ qt ipAddress ++ "/>"

/-! ## Host-mapping file updates -/

/-- The per-cluster host-mapping path `/etc/hosts.<cluster>`. -/
def hostsPath (clusterName : String) : String := "/etc/hosts." ++ clusterName

/-- The `hostsEntry` format string of `updateHostDNS`
(pkg/cluster/nodes, line 194): `"%s %s.%s.%s"`. -/
def hostsEntry (p : NodeParams) (ip vmName : String) : String :=
  ip ++ " " ++ vmName ++ "." ++ p.ClusterName ++ "." ++ p.BaseDomain

/-- `updateHostDNS` (pkg/cluster/nodes, lines 192-199): `os.WriteFile` on the
per-cluster hosts file, which creates or truncates the file and writes
exactly the entry bytes. -/
def updateHostDNS (p : NodeParams) (ip vmName : String)
    (fs : String → Option String) : String → Option String :=
  fun path =>
    if path = hostsPath p.ClusterName then some (hostsEntry p ip vmName) else fs path

/-- The `entry` format string of `updateClusterDNS`
(pkg/cluster/haproxy, line 150). -/
def clusterDNSEntry (ip clusterName baseDomain : String) : String :=
  ip ++ " lb." ++ clusterName ++ "." ++ baseDomain ++ " api." ++ clusterName ++ "." ++
  baseDomain ++ " api-int." ++ clusterName ++ "." ++ baseDomain

/-- `updateClusterDNS` (pkg/cluster/haproxy, lines 147-162): opens the
per-cluster hosts file with `O_APPEND|O_WRONLY` (an error when the file does
not exist, since `O_CREATE` is not passed) and appends the entry plus a
newline. -/
def updateClusterDNS (ip clusterName baseDomain : String)
    (fs : String → Option String) : (String → Option String) × GoErr :=
  match fs (hostsPath clusterName) with
  | none => (fs, some "failed to open hosts file")
  | some old =>
    (fun path =>
      if path = hostsPath clusterName then
        some (old ++ clusterDNSEntry ip clusterName baseDomain ++ "\n")
      else fs path,
     none)

/-! ## The addressing stage `waitForVMIPs` (pkg/cluster/nodes, lines 142-175) -/

/-- `getRoleCount` (pkg/cluster/nodes, lines 163-175). -/
def getRoleCount (p : NodeParams) (role : String) : Nat :=
  if role = "bootstrap" then 1
  else if role = "master" then p.NMaster
  else if role = "worker" then p.NWorker
  else 0

/-- The VM names the inner loop of `waitForVMIPs` builds for one role:
`fmt.Sprintf("%s-%s-%d", params.ClusterName, role, i)` for
`i = 1 .. getRoleCount`. -/
def roleQueryNames (p : NodeParams) (role : String) : List String :=
  (List.range (getRoleCount p role)).map
    (fun i => p.ClusterName ++ "-" ++ role ++ "-" ++ toString (i + 1))

/-- The full role-major sequence of VM names `waitForVMIPs` passes to
`waitForVMIP`, for the roles `bootstrap`, `master`, `worker` in order. -/
def addrQueryNames (p : NodeParams) : List String :=
  (["bootstrap", "master", "worker"].map (roleQueryNames p)).flatten

/-- One node handled by the addressing stage: the VM name handed to
`waitForVMIP` and the reservation request subsequently issued. -/
structure AddrStep where
  queried : String
  reservation : DHCPReservation
  deriving DecidableEq, Repr

/-- The loop of `waitForVMIPs` over a list of VM names.  `q` gives each VM
name's `waitForVMIP` outcome, `resv` the hypervisor's answer to a
reservation request, `fs` the filesystem.  A lease error aborts (the source
calls `logging.Fatal`); otherwise the stage issues
`AddDHCPReservation(conn, ip, mac, params.VirNet)` — the arguments in the
order of the call site on line 154 — and then `updateHostDNS`. -/
def waitForVMIPsGo (p : NodeParams) (q : String → String × String × GoErr)
    (resv : DHCPReservation → GoErr) :
    List String → (String → Option String) →
    List AddrStep × (String → Option String) × GoErr
  | [], fs => ([], fs, none)
  | n :: ns, fs =>
    match q n with
    | (_, _, some e) => ([], fs, some e)
    | (ip, mac, none) =>
      let r := AddDHCPReservation ip mac p.VirNet
      match resv r with
      | some e => ([{ queried := n, reservation := r }], fs, some e)
      | none =>
        let fs2 := updateHostDNS p ip n fs
        match waitForVMIPsGo p q resv ns fs2 with
        | (t, fs3, e) => ({ queried := n, reservation := r } :: t, fs3, e)

/-- `waitForVMIPs` (pkg/cluster/nodes): the loop applied to the role-major
name sequence. -/
def waitForVMIPs (p : NodeParams) (q : String → String × String × GoErr)
    (resv : DHCPReservation → GoErr) (fs : String → Option String) :
    List AddrStep × (String → Option String) × GoErr :=
  waitForVMIPsGo p q resv (addrQueryNames p) fs

/-! ## `CreateNodes` (pkg/cluster/nodes, lines 33-72) -/

/-- Which creator issued a `CreateVM` call: `createBootstrapNode`,
`createMasterNodes` or `createWorkerNodes`. -/
inductive NodeRole where
  | bootstrap
  | master
  | worker
  deriving DecidableEq, Repr

/-- One `CreateVM` invocation issued during node creation. -/
structure CreateCall where
  role : NodeRole
  spec : VMParams
  deriving DecidableEq, Repr

/-- The create loop shared by the three creators: issue `CreateVM` for each
spec in order and stop at the first error, which is returned. -/
def createLoop (cr : VMParams → GoErr) (role : NodeRole) :
    List VMParams → List CreateCall × GoErr
  | [] => ([], none)
  | s :: rest =>
    match cr s with
    | some e => ([{ role := role, spec := s }], some e)
    | none =>
      match createLoop cr role rest with
      | (t, r) => ({ role := role, spec := s } :: t, r)

/-- The specs `createMasterNodes` iterates over, for `i = 1 .. NMaster`. -/
def masterSpecs (p : NodeParams) : List VMParams :=
  (List.range p.NMaster).map (fun i => masterVMParams p (i + 1))

/-- The specs `createWorkerNodes` iterates over, for `i = 1 .. NWorker`. -/
def workerSpecs (p : NodeParams) : List VMParams :=
  (List.range p.NWorker).map (fun i => workerVMParams p (i + 1))

/-- The observable outcome of the creation and addressing stages of
`CreateNodes`: the `CreateVM` calls issued, the addressing steps performed,
and the error `CreateNodes` propagates (if any). -/
structure NodesRun where
  creates : List CreateCall
  addr : List AddrStep
  err : GoErr

/-- `CreateNodes` (pkg/cluster/nodes, lines 33-72), through its creation and
addressing stages: connect, create bootstrap, create masters, create
workers, then `waitForVMIPs`; each stage's error is returned at once and no
later stage runs. -/
def CreateNodes (connectOK : Bool) (cr : VMParams → GoErr)
    (q : String → String × String × GoErr) (resv : DHCPReservation → GoErr)
    (fs : String → Option String) (p : NodeParams) : NodesRun :=
  if connectOK = false then
    { creates := [], addr := [], err := some "failed to connect to libvirt" }
  else
    match createLoop cr NodeRole.bootstrap [bootstrapVMParams p] with
    | (t1, some e) => { creates := t1, addr := [], err := some e }
    | (t1, none) =>
      match createLoop cr NodeRole.master (masterSpecs p) with
      | (t2, some e) => { creates := t1 ++ t2, addr := [], err := some e }
      | (t2, none) =>
        match createLoop cr NodeRole.worker (workerSpecs p) with
        | (t3, some e) => { creates := t1 ++ t2 ++ t3, addr := [], err := some e }
        | (t3, none) =>
          match waitForVMIPs p q resv fs with
          | (t, _, e) => { creates := t1 ++ t2 ++ t3, addr := t, err := e }

/-! ## The load balancer (pkg/cluster/haproxy, lines 55-145) -/

/-- `LBVMParams` (pkg/cluster/haproxy). -/
structure LBVMParams where
  ClusterName : String
  CPU : Nat
  MEM : Nat
  VirNet : String
  VMDiskPath : String
  SSHPubKey : String
  BaseDomain : String
  LibguestfsBackend : String
  deriving DecidableEq, Repr

/-- The `VMParams` built by `createAndStartLBVM` (pkg/cluster/haproxy, lines
126-145); `Location` and `ExtraArgs` are left at Go's zero value. -/
def lbVMParams (p : LBVMParams) : VMParams :=
  { Name := p.ClusterName ++ "-lb"
    Memory := p.MEM
    CPUs := p.CPU
    DiskPath := p.VMDiskPath
    OSVariant := osVariant
    Location := ""
    ExtraArgs := ""
    Network := p.VirNet }

/-- The VM name `CreateLBVM` (pkg/cluster/haproxy, line 99) passes to
`waitForVMIP`: `params.ClusterName` itself. -/
def lbLeaseQueryName (p : LBVMParams) : String := p.ClusterName

/-! ## Virtual networks and `EnsureLibvirtNetwork` (pkg/libvirt, lines 149-270) -/

/-- The errors `EnsureLibvirtNetwork` and its helpers can produce, one
constructor per distinct `fmt.Errorf` message of the source;
`LVError.message` renders the Go text. -/
inductive LVError where
  | connectFailed
  | configErr
  | netNotFound (name : String)
  | lookupFailed (name : String)
  | ipNotFound (name : String)
  | malformedXML (name : String)
  deriving DecidableEq, Repr

/-- The Go error message of each `LVError`. -/
def LVError.message : LVError → String
  | .connectFailed => "failed to connect to libvirt"
  | .configErr => "unhandled situation: either virNetOct or virNet must be provided"
  | .netNotFound n => "libvirt network " ++ n ++ " doesn" ++ sq ++ "t exist"
  | .lookupFailed n => "failed to lookup network " ++ n
  | .ipNotFound n => "IP address not found in network XML for " ++ n
  | .malformedXML n => "malformed XML while parsing IP address for " ++ n

/-- One libvirt network object: its name, XML descriptor, bridge device, and
autostart/active flags. -/
structure LVNetwork where
  name : String
  xmlDesc : String
  bridge : String
  autostart : Bool
  active : Bool
  deriving DecidableEq, Repr

/-- The hypervisor state `EnsureLibvirtNetwork` acts on: whether connecting
succeeds, and the defined networks. -/
structure Hypervisor where
  connectOK : Bool
  networks : List LVNetwork
  deriving DecidableEq, Repr

/-- `LookupNetworkByName`. -/
def lookupNetwork (hv : Hypervisor) (n : String) : Option LVNetwork :=
  hv.networks.find? (fun net => net.name == n)

/-- The calls `EnsureLibvirtNetwork` issues against the hypervisor's
management interface, in order. -/
inductive HCall where
  | connect
  | lookupNet (name : String)
  | defineNet (xml : String)
  | setAutostartNet (name : String)
  | startNet (name : String)
  | bridgeQuery (name : String)
  | xmlQuery (name : String)
  deriving DecidableEq, Repr

/-- The `networkXML` format string of `createNewLibvirtNetwork`
(pkg/libvirt, lines 199-209), with `networkName` and `virNetOct`
interpolated. -/
def networkXML (networkName virNetOct : String) : String :=
  "\n<network>\n  <name>" ++ networkName ++ "</name>\n  <bridge name=\"" ++ networkName ++
  "\"/>\n  <forward/>\n  <ip address=\"192.168." ++ virNetOct ++
  ".1\" netmask=\"255.255.255.0\">\n    <dhcp>\n      <range start=\"192.168." ++ virNetOct ++
  ".2\" end=\"192.168." ++ virNetOct ++ ".254\"/>\n    </dhcp>\n  </ip>\n</network>"

/-- `createNewLibvirtNetwork` (pkg/libvirt, lines 197-226): define the
network from the generated XML, set autostart, start it.  The model assumes
the hypervisor accepts the generated XML and assigns the bridge name the XML
asks for. -/
def createNewLibvirtNetwork (hv : Hypervisor) (networkName virNetOct : String) :
    Hypervisor × List HCall :=
  let xml := networkXML networkName virNetOct
  let nw : LVNetwork :=
    { name := networkName, xmlDesc := xml, bridge := networkName
      autostart := true, active := true }
  ({ hv with networks := hv.networks ++ [nw] },
   [HCall.defineNet xml, HCall.setAutostartNet networkName, HCall.startNet networkName])

/-- Chars until the first double quote, or `none` when there is no double
quote: the `strings.Index(xmlDesc[ipAddrStart:], ...)` step of the gateway
parser. -/
def takeUntilQuote : List Char → Option (List Char)
  | [] => none
  | c :: rest =>
    if c == '"' then some [] else (takeUntilQuote rest).map (fun l => c :: l)

/-- The XML-scraping part of `getLibvirtNetworkGatewayIP` (pkg/libvirt, lines
256-269): find `<ip address=`, skip one further character (the opening
quote), and take everything up to the next double quote. -/
def extractGatewayIP (networkName : String) (xmlDesc : String) : Except LVError String :=
  match dropAfterMatch ("<ip address=".data) xmlDesc.data with
  | none => .error (.ipNotFound networkName)
  | some after =>
    match takeUntilQuote (after.drop 1) with
    | none => .error (.malformedXML networkName)
    | some cs => .ok (String.mk cs)

/-- `getLibvirtBridge` (pkg/libvirt, lines 229-241): look the network up and
read its bridge device name. -/
def getLibvirtBridge (hv : Hypervisor) (networkName : String) :
    Except LVError String × List HCall :=
  match lookupNetwork hv networkName with
  | none => (.error (.lookupFailed networkName), [HCall.lookupNet networkName])
  | some nw => (.ok nw.bridge, [HCall.lookupNet networkName, HCall.bridgeQuery networkName])

/-- `getLibvirtNetworkGatewayIP` (pkg/libvirt, lines 244-270): look the
network up, fetch its XML descriptor and scrape the gateway address. -/
def getLibvirtNetworkGatewayIP (hv : Hypervisor) (networkName : String) :
    Except LVError String × List HCall :=
  match lookupNetwork hv networkName with
  | none => (.error (.lookupFailed networkName), [HCall.lookupNet networkName])
  | some nw =>
    (extractGatewayIP networkName nw.xmlDesc,
     [HCall.lookupNet networkName, HCall.xmlQuery networkName])

/-- The tail of `EnsureLibvirtNetwork` (pkg/libvirt, lines 183-194) after the
network has been resolved: bridge query, then gateway query; a bridge error
yields `("", "", err)`, a gateway error yields `(bridgeName, "", err)`. -/
def ensureFinish (hv : Hypervisor) (virNet : String) (calls : List HCall) :
    (String × String × Option LVError) × Hypervisor × List HCall :=
  match getLibvirtBridge hv virNet with
  | (.error e, c2) => (("", "", some e), hv, calls ++ c2)
  | (.ok bridgeName, c2) =>
    match getLibvirtNetworkGatewayIP hv virNet with
    | (.error e, c3) => ((bridgeName, "", some e), hv, calls ++ c2 ++ c3)
    | (.ok gw, c3) => ((bridgeName, gw, none), hv, calls ++ c2 ++ c3)

/-- `EnsureLibvirtNetwork` (pkg/libvirt, lines 150-195): connect, then branch
on `virNetOct` first and `virNet` second; with neither given, fail with the
`unhandled situation` error.  The result also carries the final hypervisor
state and the ordered trace of management calls. -/
def EnsureLibvirtNetwork (hv : Hypervisor) (virNetOct virNet : String) :
    (String × String × Option LVError) × Hypervisor × List HCall :=
  if hv.connectOK = false then
    (("", "", some LVError.connectFailed), hv, [HCall.connect])
  else if virNetOct ≠ "" then
    let networkName := "ocp-" ++ virNetOct
    match lookupNetwork hv networkName with
    | some _ => ensureFinish hv networkName [HCall.connect, HCall.lookupNet networkName]
    | none =>
      match createNewLibvirtNetwork hv networkName virNetOct with
      | (hv2, calls) =>
        ensureFinish hv2 networkName (HCall.connect :: HCall.lookupNet networkName :: calls)
  else if virNet ≠ "" then
    match lookupNetwork hv virNet with
    | none =>
      (("", "", some (LVError.netNotFound virNet)), hv,
       [HCall.connect, HCall.lookupNet virNet])
    | some _ => ensureFinish hv virNet [HCall.connect, HCall.lookupNet virNet]
  else
    (("", "", some LVError.configErr), hv, [HCall.connect])

/-! ## `WaitForSSHAccess` (pkg/libvirt, lines 494-530)

`removeOldHostKey` is run for the literal IP and then for the hostname; an
error from either purge is returned at once, before the first connection
attempt.  The ssh loop sleeps 5 seconds, runs the probe command, returns
`nil` on the first success and otherwise keeps looping with no bound. -/

/-- The ssh retry loop, with fuel, starting at attempt `n`; on success it
reports how many 5-second sleeps were performed (each attempt being preceded
by one sleep); `none` means the fuel ran out with the loop still going. -/
def sshLoop (attempts : Nat → Bool) : Nat → Nat → Option Nat
  | 0, _ => none
  | fuel + 1, n =>
    if attempts n then some (n + 1) else sshLoop attempts fuel (n + 1)

/-- `WaitForSSHAccess` (pkg/libvirt): `purgeIP` and `purgeHost` are the
outcomes of the two `ssh-keygen -R` purges, `attempts n` tells whether the
n-th ssh probe succeeds.  `some (err, k)` means the function returns `err`
after `k` sleeps; `none` means it is still looping after `fuel` attempts. -/
def WaitForSSHAccess (purgeIP purgeHost : GoErr) (attempts : Nat → Bool)
    (fuel : Nat) : Option (GoErr × Nat) :=
  match purgeIP with
  | some e => some (some e, 0)
  | none =>
    match purgeHost with
    | some e => some (some e, 0)
    | none => (sshLoop attempts fuel 0).map (fun n => (none, n))

/-! ## Concrete fixtures used by the scenario theorems -/

/-- A concrete `NodeParams` value: cluster `ocp`, base domain `local`,
network `ocp-100`, two masters and one worker. -/
def testParams : NodeParams :=
  { ClusterName := "ocp"
    BaseDomain := "local"
    VMDir := "/var/lib/libvirt/images"
    LBIP := "192.168.100.2"
    WSPort := 8080
    Image := "rhcos.raw.gz"
    VirNet := "ocp-100"
    BtsMem := 16384
    BtsCPU := 4
    MasMem := 16384
    MasCPU := 4
    WorMem := 8192
    WorCPU := 2
    NMaster := 2
    NWorker := 1
    RHCOSArg := "coreos.inst.image_url"
    LibguestfsBackend := "qemu:///system" }

/-- A filesystem holding an (initially empty) `/etc/hosts.ocp`. -/
def fsC2 : String → Option String :=
  fun path => if path = "/etc/hosts.ocp" then some "" else none

/-- Interfaces with no acceptable lease: the first has an IPv4 address but an
empty hardware address, the second a hardware address but only IPv6. -/
def ifacesC10 : List DomainIface :=
  [{ hwaddr := "", addrs := [{ typ := IPAddrType.ipv4, addr := "192.168.1.5" }] },
   { hwaddr := "52:54:00:01:02:03", addrs := [{ typ := IPAddrType.ipv6, addr := "fe80::1" }] }]

/-- A lease oracle for the addressing stage: the bootstrap query name has a
valid lease, every other name reports no lease yet (and no error). -/
def qC3 : String → String × String × GoErr :=
  fun n =>
    if n = "ocp-bootstrap-1" then ("192.168.100.10", "52:54:00:aa:bb:01", none)
    else ("", "", none)

/-- A `CreateVM` oracle failing exactly on `ocp-master-2`. -/
def crC7 : VMParams → GoErr :=
  fun s => if s.Name = "ocp-master-2" then some "failed to create domain: master-2" else none

/-- A hypervisor with a connection and an existing `ocp-100` network. -/
def hvBoth : Hypervisor :=
  { connectOK := true
    networks := [{ name := "ocp-100", xmlDesc := networkXML "ocp-100" "100"
                   bridge := "virbr100", autostart := true, active := true }] }

/-- A hypervisor with a working connection and no networks. -/
def hvFresh : Hypervisor := { connectOK := true, networks := [] }

/-- The network object `EnsureLibvirtNetwork hvFresh "100" ""` defines. -/
def ocp100Net : LVNetwork :=
  { name := "ocp-100", xmlDesc := networkXML "ocp-100" "100", bridge := "ocp-100"
    autostart := true, active := true }

/-- A concrete `LBVMParams` value for cluster `ocp`. -/
def lbTestParams : LBVMParams :=
  { ClusterName := "ocp"
    CPU := 2
    MEM := 4096
    VirNet := "ocp-100"
    VMDiskPath := "/var/lib/libvirt/images/ocp-lb.qcow2"
    SSHPubKey := "id_rsa.pub"
    BaseDomain := "local"
    LibguestfsBackend := "qemu:///system" }

/-! ## Theorems -/

/-- When every interface has an empty hardware address or no accepted IPv4
address, the search loop of `GetVMIP` finds nothing. -/
theorem findLease_eq_none (ifaces : List DomainIface)
    (h : ∀ i ∈ ifaces, i.hwaddr = "" ∨ ∀ a ∈ i.addrs, addrAccepted a = false) :
    findLease ifaces = none := by
  induction ifaces with
  | nil => rfl
  | cons iface rest ih =>
    have hrest : ∀ i ∈ rest, i.hwaddr = "" ∨ ∀ a ∈ i.addrs, addrAccepted a = false :=
      fun i hi => h i (List.mem_cons_of_mem _ hi)
    unfold findLease
    rcases h iface (List.mem_cons_self _ _) with h1 | h2
    · rw [if_neg (by simp [h1])]
      exact ih hrest
    · by_cases hw : iface.hwaddr ≠ ""
      · rw [if_pos hw]
        have hfind : iface.addrs.find? addrAccepted = none :=
          List.find?_eq_none.mpr (fun a ha => by simp [h2 a ha])
        rw [hfind]
        exact ih hrest
      · rw [if_neg hw]
        exact ih hrest

/-- C1: the claim says `waitForVMIP` re-queries the lease source every 5 time
units until a valid lease appears, sleeping once per attempt.  The code's
loop body ends in an unconditional `return "", "", err`, so on the lease
source `srcC1` — no lease (and no error) on attempt 1, a valid lease on
attempt 2 — it returns `("", "", nil)` after a single sleep instead of
polling on and returning the valid pair after two sleeps. -/
theorem c1_waitForVMIP_returns_after_first_attempt :
    GetVMIP (srcC1 0) = ("", "", none) ∧
    GetVMIP (srcC1 1) = ("192.168.126.10", "52:54:00:aa:bb:01", none) ∧
    waitForVMIP srcC1 5 = some (1, ("", "", none)) :=
  ⟨rfl, rfl, rfl⟩

/-- C10: when the interface-address query succeeds but no interface carries
both a non-empty hardware address and an accepted IPv4 address, `GetVMIP`
returns empty IP, empty MAC and a `nil` error; on such a result the
addressing stage does not abort but proceeds, issuing a DHCP reservation
request built from the empty strings. -/
theorem c10_getVMIP_no_lease_is_success :
    (∀ ifaces : List DomainIface,
        (∀ i ∈ ifaces, i.hwaddr = "" ∨ ∀ a ∈ i.addrs, addrAccepted a = false) →
        GetVMIP (Except.ok ifaces) = ("", "", none)) ∧
    (∀ (p : NodeParams) (q : String → String × String × GoErr)
        (resv : DHCPReservation → GoErr) (fs : String → Option String)
        (n : String) (ns : List String),
        q n = ("", "", none) →
        resv (AddDHCPReservation "" "" p.VirNet) = none →
        (waitForVMIPsGo p q resv (n :: ns) fs).1.head? =
          some { queried := n, reservation := AddDHCPReservation "" "" p.VirNet }) := by
  constructor
  · intro ifaces h
    simp only [GetVMIP, findLease_eq_none ifaces h]
  · intro p q resv fs n ns hq hr
    unfold waitForVMIPsGo
    rw [hq]
    simp only [hr]
    rcases waitForVMIPsGo p q resv ns (updateHostDNS p "" n fs) with ⟨t, fs3, e⟩
    rfl

/-- Witness for C10 at concrete inputs. -/
theorem c10_witness :
    GetVMIP (Except.ok ifacesC10) = ("", "", none) ∧
    (waitForVMIPsGo testParams (fun _ => ("", "", none)) (fun _ => none)
        ["ocp-bootstrap-1", "ocp-master-1", "ocp-master-2", "ocp-worker-1"] fsC2).1.head? =
      some { queried := "ocp-bootstrap-1",
             reservation := AddDHCPReservation "" "" testParams.VirNet } :=
  ⟨c10_getVMIP_no_lease_is_success.1 ifacesC10 (by decide),
   c10_getVMIP_no_lease_is_success.2 testParams (fun _ => ("", "", none)) (fun _ => none)
     fsC2 "ocp-bootstrap-1" ["ocp-master-1", "ocp-master-2", "ocp-worker-1"] rfl rfl⟩

/-- C2: the claim says both host-publication paths are append-only on
`/etc/hosts.<cluster>`.  `updateClusterDNS` (the load-balancer path) does
append, but `updateHostDNS` (the per-node path) uses `os.WriteFile`, which
truncates: after the bootstrap entry and then a master entry are published,
the file holds only the master line and the bootstrap line is gone. -/
theorem c2_updateHostDNS_truncates :
    (updateHostDNS testParams "192.168.100.11" "ocp-master-1"
        (updateHostDNS testParams "192.168.100.10" "ocp-bootstrap-1" fsC2))
      (hostsPath "ocp") = some "192.168.100.11 ocp-master-1.ocp.local" ∧
    strContains "192.168.100.11 ocp-master-1.ocp.local" "ocp-bootstrap-1" = false ∧
    ((updateClusterDNS "192.168.100.6" "ocp" "local"
        (updateClusterDNS "192.168.100.5" "ocp" "local" fsC2).1).1)
      (hostsPath "ocp") =
      some ("192.168.100.5 lb.ocp.local api.ocp.local api-int.ocp.local\n" ++
            "192.168.100.6 lb.ocp.local api.ocp.local api-int.ocp.local\n") := by
  refine ⟨?_, by decide, ?_⟩ <;> rfl

/-- C3: the claim says each cohort node's reservation is issued with the
network name, then the node's MAC, then the node's IP.  The call site
`AddDHCPReservation(conn, ip, mac, params.VirNet)` passes the node's IP in
the `networkName` position and the network name in the `ipAddress` position:
for the bootstrap lease `(192.168.100.10, 52:54:00:aa:bb:01)` on network
`ocp-100` the issued request carries `networkName = 192.168.100.10` and
`ip = ocp-100`. -/
theorem c3_reservation_arguments_swapped :
    (waitForVMIPs testParams qC3 (fun _ => none) fsC2).1.head? =
      some { queried := "ocp-bootstrap-1"
             reservation :=
               { networkName := "192.168.100.10", mac := "52:54:00:aa:bb:01", ip := "ocp-100" } } ∧
    testParams.VirNet = "ocp-100" ∧
    ("192.168.100.10" : String) ≠ testParams.VirNet := by
  refine ⟨rfl, rfl, by decide⟩

/-- C4: the claim says the addressing stage queries leases under the same
names used at creation, `<cluster>-bootstrap` and `<cluster>-lb`.  For the
cluster `ocp`, the bootstrap VM is created as `ocp-bootstrap` but the
addressing loop builds `ocp-bootstrap-1`, and the load-balancer VM is
created as `ocp-lb` but `CreateLBVM` waits on the bare cluster name
`ocp`. -/
theorem c4_lease_wait_names_differ_from_created :
    (bootstrapVMParams testParams).Name = "ocp-bootstrap" ∧
    (addrQueryNames testParams).head? = some "ocp-bootstrap-1" ∧
    ("ocp-bootstrap-1" : String) ≠ "ocp-bootstrap" ∧
    (lbVMParams lbTestParams).Name = "ocp-lb" ∧
    lbLeaseQueryName lbTestParams = "ocp" ∧
    ("ocp" : String) ≠ "ocp-lb" := by
  refine ⟨rfl, rfl, by decide, rfl, rfl, by decide⟩

/-- C6: the claim says the definition a bootstrap/master/worker VM is
instantiated from includes the spec's network-boot location and
kernel-argument string besides the virtio disk and interface.  The spec
built by `createBootstrapNode` does carry `Location = "rhcos-install/"` and
a `coreos.inst...` argument string, and the generated domain XML does bind
the disk path and the network, but the XML contains neither the location nor
any part of the argument string: `CreateVM` never reads those fields. -/
theorem c6_domainXML_omits_location_and_extraArgs :
    strContains (domainXML (bootstrapVMParams testParams))
      (bootstrapVMParams testParams).DiskPath = true ∧
    strContains (domainXML (bootstrapVMParams testParams))
      (bootstrapVMParams testParams).Network = true ∧
    (bootstrapVMParams testParams).Location = "rhcos-install/" ∧
    strContains (bootstrapVMParams testParams).ExtraArgs "coreos.inst" = true ∧
    strContains (domainXML (bootstrapVMParams testParams)) "rhcos-install" = false ∧
    strContains (domainXML (bootstrapVMParams testParams)) "coreos.inst" = false := by
  refine ⟨by decide, by decide, rfl, by decide, by decide, by decide⟩

/-- C8: `EnsureLibvirtNetwork` with octet `100` on a hypervisor with no
`ocp-100` network defines one whose gateway is `192.168.100.1` with netmask
`255.255.255.0` and DHCP range `192.168.100.2`–`192.168.100.254`, sets it to
autostart, starts it, and returns its bridge and gateway with no error; the
call trace shows define, autostart and start issued immediately. -/
theorem c8_ensureNetwork_octet_100 :
    (EnsureLibvirtNetwork hvFresh "100" "").1 = ("ocp-100", "192.168.100.1", none) ∧
    lookupNetwork (EnsureLibvirtNetwork hvFresh "100" "").2.1 "ocp-100" = some ocp100Net ∧
    ocp100Net.autostart = true ∧
    ocp100Net.active = true ∧
    strContains ocp100Net.xmlDesc
      "<ip address=\"192.168.100.1\" netmask=\"255.255.255.0\">" = true ∧
    strContains ocp100Net.xmlDesc
      "<range start=\"192.168.100.2\" end=\"192.168.100.254\"/>" = true ∧
    (EnsureLibvirtNetwork hvFresh "100" "").2.2 =
      [HCall.connect, HCall.lookupNet "ocp-100",
       HCall.defineNet (networkXML "ocp-100" "100"),
       HCall.setAutostartNet "ocp-100", HCall.startNet "ocp-100",
       HCall.lookupNet "ocp-100", HCall.bridgeQuery "ocp-100",
       HCall.lookupNet "ocp-100", HCall.xmlQuery "ocp-100"] := by
  refine ⟨rfl, rfl, rfl, rfl, by decide, by decide, rfl⟩

/-- With no succeeding attempt the ssh loop never exits, whatever the fuel. -/
theorem sshLoop_none_of_never (attempts : Nat → Bool)
    (h : ∀ n, attempts n = false) : ∀ fuel k, sshLoop attempts fuel k = none := by
  intro fuel
  induction fuel with
  | zero => intro k; rfl
  | succ f ih =>
    intro k
    unfold sshLoop
    rw [h k]
    simpa using ih (k + 1)

/-- The ssh loop exits on the first succeeding attempt, reporting one sleep
per attempt made. -/
theorem sshLoop_first_success (attempts : Nat → Bool) :
    ∀ (fuel k n : Nat), k ≤ n → n < k + fuel →
      (∀ m, k ≤ m → m < n → attempts m = false) → attempts n = true →
      sshLoop attempts fuel k = some (n + 1) := by
  intro fuel
  induction fuel with
  | zero => intro k n hkn hlt _ _; omega
  | succ f ih =>
    intro k n hkn hlt hbefore hn
    unfold sshLoop
    rcases hak : attempts k with _ | _
    · have hkne : k ≠ n := by
        intro hkn2
        rw [hkn2, hn] at hak
        simp at hak
      simp only [Bool.false_eq_true, if_false]
      exact ih (k + 1) n (by omega) (by omega)
        (fun m hm1 hm2 => hbefore m (by omega) hm2) hn
    · have hkeq : k = n := by
        by_contra hne
        have hkn2 : k < n := lt_of_le_of_ne hkn hne
        have := hbefore k le_rfl hkn2
        rw [this] at hak
        simp at hak
      simp [hkeq]

/-- C9: `WaitForSSHAccess` purges the host key for the literal IP and then
for the hostname before any connection attempt — a purge error is returned
with zero attempts made; afterwards it probes every 5 time units, returns
`nil` after the first succeeding attempt (one sleep per attempt), and with
no succeeding attempt it never returns, for any amount of fuel. -/
theorem c9_waitForSSH_behavior :
    (∀ (e : String) (purgeHost : GoErr) (attempts : Nat → Bool) (fuel : Nat),
        WaitForSSHAccess (some e) purgeHost attempts fuel = some (some e, 0)) ∧
    (∀ (e : String) (attempts : Nat → Bool) (fuel : Nat),
        WaitForSSHAccess none (some e) attempts fuel = some (some e, 0)) ∧
    (∀ (attempts : Nat → Bool) (n : Nat),
        (∀ m, m < n → attempts m = false) → attempts n = true →
        ∀ fuel, n < fuel →
        WaitForSSHAccess none none attempts fuel = some (none, n + 1)) ∧
    (∀ attempts : Nat → Bool, (∀ n, attempts n = false) →
        ∀ fuel, WaitForSSHAccess none none attempts fuel = none) := by
  refine ⟨fun _ _ _ _ => rfl, fun _ _ _ => rfl, ?_, ?_⟩
  · intro attempts n hb hn fuel hf
    unfold WaitForSSHAccess
    rw [sshLoop_first_success attempts fuel 0 n (Nat.zero_le n) (by omega)
      (fun m _ hm => hb m hm) hn]
    rfl
  · intro attempts h fuel
    unfold WaitForSSHAccess
    rw [sshLoop_none_of_never attempts h fuel 0]
    rfl

/-- Witness for C9: a probe that first succeeds on the third attempt makes
`WaitForSSHAccess` return `nil` after three sleeps, and a failing purge is
returned before any attempt. -/
theorem c9_witness :
    WaitForSSHAccess none none (fun n => decide (2 ≤ n)) 10 = some (none, 3) ∧
    WaitForSSHAccess (some "purge failed") none (fun _ => true) 10 =
      some (some "purge failed", 0) :=
  ⟨c9_waitForSSH_behavior.2.2.1 (fun n => decide (2 ≤ n)) 2
      (fun m hm => by simp; omega) rfl 10 (by decide),
   c9_waitForSSH_behavior.1 "purge failed" none (fun _ => true) 10⟩

/-- The gateway scraper never produces the mutual-exclusion configuration
error. -/
theorem extractGatewayIP_ne_configErr (n x : String) :
    extractGatewayIP n x ≠ Except.error LVError.configErr := by
  unfold extractGatewayIP
  rcases h1 : dropAfterMatch ("<ip address=".data) x.data with _ | a
  · simp
  · rcases h2 : takeUntilQuote (a.drop 1) with _ | cs <;>
      rw [List.drop_one] at h2 <;> simp [h2]

/-- The bridge/gateway tail of `EnsureLibvirtNetwork` never produces the
mutual-exclusion configuration error. -/
theorem ensureFinish_ne_configErr (hv : Hypervisor) (n : String) (calls : List HCall) :
    (ensureFinish hv n calls).1.2.2 ≠ some LVError.configErr := by
  unfold ensureFinish getLibvirtBridge getLibvirtNetworkGatewayIP
  rcases h : lookupNetwork hv n with _ | nw
  · simp
  · rcases h2 : extractGatewayIP n nw.xmlDesc with e | gw
    · have hne := extractGatewayIP_ne_configErr n nw.xmlDesc
      rw [h2] at hne
      simp only [h2]
      simpa using fun hc => hne (by rw [hc])
    · simp [h2]

/-- Counterexample to C5: with both `octet` and `existingName` non-empty (on
a hypervisor that has `ocp-100`), `EnsureLibvirtNetwork` returns no error at
all instead of the claimed configuration error; and with both empty, the
configuration error is produced only after the hypervisor connection — a
hypervisor call — has been made. -/
theorem c5_counterexample :
    (EnsureLibvirtNetwork hvBoth "100" "other-net").1.2.2 = none ∧
    (EnsureLibvirtNetwork hvFresh "" "").1.2.2 = some LVError.configErr ∧
    (EnsureLibvirtNetwork hvFresh "" "").2.2 = [HCall.connect] :=
  ⟨rfl, rfl, rfl⟩

/-- C5 (amended): once connected, `EnsureLibvirtNetwork` returns the
mutual-exclusion configuration error exactly when both `octet` and
`existingName` are empty — a non-empty `octet` takes precedence and no
configuration error arises even when `existingName` is also non-empty — and
in the both-empty case the only preceding hypervisor interaction is the
connection itself. -/
theorem c5_configErr_iff_both_empty (hv : Hypervisor) (oct net : String)
    (hok : hv.connectOK = true) :
    ((EnsureLibvirtNetwork hv oct net).1.2.2 = some LVError.configErr ↔
      (oct = "" ∧ net = "")) ∧
    (oct = "" → net = "" → (EnsureLibvirtNetwork hv oct net).2.2 = [HCall.connect]) := by
  unfold EnsureLibvirtNetwork
  rw [hok]
  simp only [Bool.true_eq_false, if_false]
  by_cases hoct : oct = ""
  · subst hoct
    simp only [ne_eq, not_true_eq_false, if_false]
    by_cases hnet : net = ""
    · subst hnet
      simp
    · rw [if_pos (by simpa using hnet)]
      constructor
      · rcases h : lookupNetwork hv net with _ | nw
        · simp [hnet]
        · simpa [hnet] using ensureFinish_ne_configErr hv net
            [HCall.connect, HCall.lookupNet net]
      · intro _ hc
        exact absurd hc hnet
  · rw [if_pos (by simpa using hoct)]
    constructor
    · rcases h : lookupNetwork hv ("ocp-" ++ oct) with _ | nw
      · rcases h2 : createNewLibvirtNetwork hv ("ocp-" ++ oct) oct with ⟨hv2, calls⟩
        simpa [hoct] using ensureFinish_ne_configErr hv2 ("ocp-" ++ oct)
          (HCall.connect :: HCall.lookupNet ("ocp-" ++ oct) :: calls)
      · simpa [hoct] using ensureFinish_ne_configErr hv ("ocp-" ++ oct)
          [HCall.connect, HCall.lookupNet ("ocp-" ++ oct)]
    · intro hc
      exact absurd hc hoct

/-- Witness for the amended C5: on a connected hypervisor with both
parameters empty, the configuration error is produced and the trace holds
the connection call alone. -/
theorem c5_witness :
    (EnsureLibvirtNetwork hvFresh "" "").1.2.2 = some LVError.configErr ∧
    (EnsureLibvirtNetwork hvFresh "" "").2.2 = [HCall.connect] :=
  ⟨(c5_configErr_iff_both_empty hvFresh "" "" rfl).1.mpr ⟨rfl, rfl⟩,
   (c5_configErr_iff_both_empty hvFresh "" "" rfl).2 rfl rfl⟩

/-- Every call recorded by one create loop carries that loop's role. -/
theorem createLoop_role_eq (cr : VMParams → GoErr) (role : NodeRole) :
    ∀ specs, ∀ c ∈ (createLoop cr role specs).1, c.role = role := by
  intro specs
  induction specs with
  | nil =>
    intro c hc
    simp [createLoop] at hc
  | cons s rest ih =>
    intro c hc
    unfold createLoop at hc
    rcases h : cr s with _ | e
    · rw [h] at hc
      rcases h2 : createLoop cr role rest with ⟨t, r⟩
      rw [h2] at hc
      simp only [List.mem_cons] at hc
      rcases hc with hc | hc
      · rw [hc]
      · exact ih c (by rw [h2]; exact hc)
    · rw [h] at hc
      simp only [List.mem_singleton] at hc
      rw [hc]

/-- C7: when the bootstrap VM is created successfully and the master stage
returns an error, `CreateNodes` returns that very error, no worker-creation
call is ever issued, and the addressing stage never runs. -/
theorem c7_master_error_stops_run (p : NodeParams) (cr : VMParams → GoErr)
    (q : String → String × String × GoErr) (resv : DHCPReservation → GoErr)
    (fs : String → Option String) (e : String)
    (hb : cr (bootstrapVMParams p) = none)
    (hm : (createLoop cr NodeRole.master (masterSpecs p)).2 = some e) :
    (CreateNodes true cr q resv fs p).err = some e ∧
    (∀ c ∈ (CreateNodes true cr q resv fs p).creates, c.role ≠ NodeRole.worker) ∧
    (CreateNodes true cr q resv fs p).addr = [] := by
  have h1 : createLoop cr NodeRole.bootstrap [bootstrapVMParams p] =
      ([{ role := NodeRole.bootstrap, spec := bootstrapVMParams p }], none) := by
    simp [createLoop, hb]
  rcases h2 : createLoop cr NodeRole.master (masterSpecs p) with ⟨t2, r2⟩
  rw [h2] at hm
  simp only at hm
  subst hm
  unfold CreateNodes
  simp only [Bool.true_eq_false, if_false]
  rw [h1, h2]
  refine ⟨rfl, ?_, rfl⟩
  intro c hc
  simp only [List.mem_append, List.mem_singleton] at hc
  rcases hc with hc | hc
  · rw [hc]
    simp
  · have := createLoop_role_eq cr NodeRole.master (masterSpecs p) c (by rw [h2]; exact hc)
    rw [this]
    simp

/-- Witness for C7: with `CreateVM` failing exactly on `ocp-master-2`, the
run returns that error and performs no addressing step. -/
theorem c7_witness :
    (CreateNodes true crC7 (fun _ => ("", "", none)) (fun _ => none) fsC2 testParams).err =
      some "failed to create domain: master-2" ∧
    (CreateNodes true crC7 (fun _ => ("", "", none)) (fun _ => none) fsC2 testParams).addr =
      [] := by
  have h := c7_master_error_stops_run testParams crC7 (fun _ => ("", "", none))
    (fun _ => none) fsC2 "failed to create domain: master-2" rfl (by decide)
  exact ⟨h.1, h.2.2⟩

end OpenshiftQemu
